import Mathlib

/-!
Shallow embedding of the LSM6 Arduino driver (src/LSM6.cpp) and proofs of
its specified properties.  The two-wire bus transport is modelled as an
explicit oracle (availability counts, timestamps, byte stream, transaction
status), and each driver method becomes a pure function over an explicit
driver state.
-/

namespace LSM6Model

/-- `#define DS33_SA0_HIGH_ADDRESS 0b1101011` -/
def DS33_SA0_HIGH_ADDRESS : Nat := 0b1101011

/-- `#define DS33_SA0_LOW_ADDRESS 0b1101010` -/
def DS33_SA0_LOW_ADDRESS : Nat := 0b1101010

/-- `#define TEST_REG_ERROR -1` -/
def TEST_REG_ERROR : Int := -1

/-- `#define DS33_WHO_ID 0x69` -/
def DS33_WHO_ID : Nat := 0x69

/-- `vector<int16_t>`: the three-axis result vectors `a` and `g`. -/
structure Vector3 where
  x : Int
  y : Int
  z : Int
deriving DecidableEq

/-- `enum deviceType { device_DS33, device_auto }` (the variants used in the source). -/
inductive deviceType
  | device_DS33
  | device_auto
deriving DecidableEq

/-- `enum sa0State { sa0_low, sa0_high, sa0_auto }`. -/
inductive sa0State
  | sa0_low
  | sa0_high
  | sa0_auto
deriving DecidableEq

open deviceType sa0State

/-- The driver's member state: `_device`, `address`, `io_timeout`,
`did_timeout`, and the two result vectors `a` (accelerometer) and `g`
(gyro).  `io_timeout` is a `uint16_t`, `address` a 7-bit bus address. -/
structure LSM6State where
  _device : deviceType
  address : Nat
  io_timeout : Nat
  did_timeout : Bool
  a : Vector3
  g : Vector3
deriving DecidableEq

/-- Reinterpretation of a 16-bit unsigned value as a signed 16-bit integer,
modelling the C cast `(int16_t)` applied to a value in `0..65535`. -/
def toInt16 (n : Nat) : Int :=
  if n % 65536 < 32768 then ((n % 65536 : Nat) : Int)
  else ((n % 65536 : Nat) : Int) - 65536

/-- The per-axis combination of the source:
`(int16_t)(xh << 8 | xl)` for bytes `xl` (low) and `xh` (high). -/
def combineBytes (xl xh : Nat) : Int :=
  toInt16 ((xh <<< 8) ||| xl)

/-- Reference two's-complement decoding of the byte pair (`xl` low, `xh`
high), written from the spec's words: the unsigned value `256*xh + xl`,
shifted down by `2^16` when it is at least `2^15`. -/
def twosComplementRef (xl xh : Nat) : Int :=
  if 256 * xh + xl < 32768 then ((256 * xh + xl : Nat) : Int)
  else ((256 * xh + xl : Nat) : Int) - 65536

/-- The elapsed-time computation of the poll loop,
`(uint16_t)millis() - millis_start`: unsigned 16-bit subtraction of the
start timestamp `s` from the (truncated) current timestamp `c`, wrapping
modulo `2^16`. -/
def elapsed16 (c s : Nat) : Nat :=
  (c % 65536 + (65536 - s % 65536)) % 65536

/-- Reference wraparound-safe unsigned 16-bit difference `(c - s) mod 2^16`,
written from the spec's words, with the subtraction performed in `ℤ`. -/
def wrapDiffRef (c s : Nat) : Int :=
  ((c : Int) - (s : Int)) % 65536

/-- Transport behaviour during one `readAcc`/`readGyro` call: `avail n` is
the value `twMaster.available()` returns at the `n`-th loop check, `ms n`
the (16-bit truncated) `millis()` value at the `n`-th timeout check,
`millis_start` the 16-bit timestamp captured before the loop, and
`bytes n` the byte returned by the `n`-th `twMaster.read()` call. -/
structure BusRead where
  avail : Nat → Nat
  ms : Nat → Nat
  millis_start : Nat
  bytes : Nat → Nat

/-- The polling loop
`while (available() < 6) { if (io_timeout > 0 && elapsed > io_timeout) ... }`
of `readAcc`/`readGyro`, starting at loop check `n` with `fuel` remaining
iterations.  `some true`: the loop exited with 6 bytes available;
`some false`: the loop exited by timeout; `none`: the loop is still
running after `fuel` iterations. -/
def pollLoop (io_timeout : Nat) (bus : BusRead) : Nat → Nat → Option Bool
  | _, 0 => none
  | n, fuel + 1 =>
    if bus.avail n < 6 then
      if io_timeout > 0 ∧ elapsed16 (bus.ms n) bus.millis_start > io_timeout then
        some false
      else
        pollLoop io_timeout bus (n + 1) fuel
    else
      some true

/-- `LSM6::readAcc`: polls until 6 bytes are available or the timeout
elapses.  On timeout it sets `did_timeout` and returns; on success it reads
the six bytes `xla,xha,yla,yha,zla,zha` and stores the combined values in
`a`.  Returns the updated state together with the number of
`twMaster.read()` calls performed; `none` when the poll loop is still
running after `fuel` iterations. -/
def readAcc (bus : BusRead) (s : LSM6State) (fuel : Nat) : Option (LSM6State × Nat) :=
  match pollLoop s.io_timeout bus 0 fuel with
  | none => none
  | some false => some ({ s with did_timeout := true }, 0)
  | some true =>
    let xla := bus.bytes 0 % 256
    let xha := bus.bytes 1 % 256
    let yla := bus.bytes 2 % 256
    let yha := bus.bytes 3 % 256
    let zla := bus.bytes 4 % 256
    let zha := bus.bytes 5 % 256
    some ({ s with a := ⟨combineBytes xla xha, combineBytes yla yha, combineBytes zla zha⟩ }, 6)

/-- `LSM6::readGyro`: identical to `readAcc` except that the combined
values are stored in `g`. -/
def readGyro (bus : BusRead) (s : LSM6State) (fuel : Nat) : Option (LSM6State × Nat) :=
  match pollLoop s.io_timeout bus 0 fuel with
  | none => none
  | some false => some ({ s with did_timeout := true }, 0)
  | some true =>
    let xlg := bus.bytes 0 % 256
    let xhg := bus.bytes 1 % 256
    let ylg := bus.bytes 2 % 256
    let yhg := bus.bytes 3 % 256
    let zlg := bus.bytes 4 % 256
    let zhg := bus.bytes 5 % 256
    some ({ s with g := ⟨combineBytes xlg xhg, combineBytes ylg yhg, combineBytes zlg zhg⟩ }, 6)

/-- `LSM6::timeoutOccurred`: returns the current `did_timeout` flag and
clears it. -/
def timeoutOccurred (s : LSM6State) : Bool × LSM6State :=
  (s.did_timeout, { s with did_timeout := false })

/-- Transport behaviour during one `testReg` call: the status returned by
`endTransmission()` after the register-address write, and the byte made
available by `requestFrom` (or `none` when `available()` reports no
byte). -/
structure ProbeBus where
  writeStatus : Nat
  availByte : Option Nat

/-- `LSM6::testReg`: writes the register address; if the write transaction
status is nonzero, returns `TEST_REG_ERROR` without requesting a read.
Otherwise requests one byte and returns it when available, else
`TEST_REG_ERROR`.  The second component counts the `requestFrom` calls
performed. -/
def testReg (bus : ProbeBus) : Int × Nat :=
  if bus.writeStatus ≠ 0 then
    (TEST_REG_ERROR, 0)
  else
    match bus.availByte with
    | some b => (((b % 256 : Nat) : Int), 1)
    | none => (TEST_REG_ERROR, 1)

/-- The probing block of `LSM6::init` (lines 52–66): given the result
`probe addr` of `testReg(addr, WHO_AM_I)` at each candidate bus address,
returns the updated local `device` and `sa0` variables together with the
number of `testReg` probe transactions performed. -/
def probePhase (probe : Nat → Int) (device : deviceType) (sa0 : sa0State) :
    deviceType × sa0State × Nat :=
  if device = device_auto ∨ device = device_DS33 then
    if sa0 ≠ sa0_low then
      if probe DS33_SA0_HIGH_ADDRESS = ((DS33_WHO_ID : Nat) : Int) then
        ((if device = device_auto then device_DS33 else device), sa0_high, 1)
      else if sa0 ≠ sa0_high then
        if probe DS33_SA0_LOW_ADDRESS = ((DS33_WHO_ID : Nat) : Int) then
          ((if device = device_auto then device_DS33 else device), sa0_low, 2)
        else (device, sa0, 2)
      else (device, sa0, 1)
    else
      if probe DS33_SA0_LOW_ADDRESS = ((DS33_WHO_ID : Nat) : Int) then
        ((if device = device_auto then device_DS33 else device), sa0_low, 1)
      else (device, sa0, 1)
  else (device, sa0, 0)

/-- The tail of `LSM6::init` after successful resolution: stores the
resolved device in `_device` and computes the bus address from the
device/SA0 combination (`switch` on `device`). -/
def initTail (device : deviceType) (sa0 : sa0State) (s : LSM6State) : LSM6State :=
  let s1 := { s with _device := device }
  match device with
  | device_DS33 =>
    { s1 with
      address := if sa0 = sa0_high then DS33_SA0_HIGH_ADDRESS else DS33_SA0_LOW_ADDRESS }
  | device_auto => s1

/-- `LSM6::init`: auto-detects the device and SA0 state unless both are
pinned, then stores the resolved device and bus address.  Returns the
boolean result, the post-call state, and the number of probe transactions
performed on the bus. -/
def init (probe : Nat → Int) (device : deviceType) (sa0 : sa0State) (s : LSM6State) :
    Bool × LSM6State × Nat :=
  if device = device_auto ∨ sa0 = sa0_auto then
    if (probePhase probe device sa0).1 = device_auto ∨
        (probePhase probe device sa0).2.1 = sa0_auto then
      (false, s, (probePhase probe device sa0).2.2)
    else
      (true,
       initTail (probePhase probe device sa0).1 (probePhase probe device sa0).2.1 s,
       (probePhase probe device sa0).2.2)
  else
    (true, initTail device sa0 s, 0)

/-! ## Helper lemmas -/

/-- With `xl < 256`, the C expression `xh << 8 | xl` equals `256 * xh + xl`. -/
theorem shiftLeft_or_eq_add (xl xh : Nat) (hl : xl < 256) :
    (xh <<< 8) ||| xl = 256 * xh + xl := by
  have h : xl < 2 ^ 8 := hl
  rw [Nat.shiftLeft_eq, Nat.mul_comm xh (2 ^ 8), ← Nat.mul_add_lt_is_or h xh]

/-- If bytes never become available and the elapsed time exceeds the positive
timeout at check `n + fuel`, the poll loop exits by timeout within
`fuel + 1` iterations from check `n`. -/
theorem pollLoop_timeout (t : Nat) (bus : BusRead) (ht : t > 0)
    (hav : ∀ m, bus.avail m < 6) :
    ∀ fuel n, elapsed16 (bus.ms (n + fuel)) bus.millis_start > t →
      pollLoop t bus n (fuel + 1) = some false := by
  intro fuel
  induction fuel with
  | zero =>
    intro n h
    simp only [pollLoop, if_pos (hav n)]
    rw [if_pos ⟨ht, by simpa using h⟩]
  | succ k ih =>
    intro n h
    simp only [pollLoop, if_pos (hav n)]
    by_cases hc : t > 0 ∧ elapsed16 (bus.ms n) bus.millis_start > t
    · rw [if_pos hc]
    · rw [if_neg hc]
      exact ih (n + 1) (by simpa [Nat.add_assoc, Nat.add_comm, Nat.add_left_comm] using h)

/-- With timeout `0` the poll loop can never exit by timeout. -/
theorem pollLoop_zero_not_timeout (bus : BusRead) :
    ∀ fuel n, pollLoop 0 bus n fuel ≠ some false := by
  intro fuel
  induction fuel with
  | zero => intro n; simp [pollLoop]
  | succ k ih =>
    intro n
    simp only [pollLoop]
    by_cases hav : bus.avail n < 6
    · rw [if_pos hav]
      have hnc : ¬ ((0 : Nat) > 0 ∧ elapsed16 (bus.ms n) bus.millis_start > 0) := by omega
      rw [if_neg hnc]
      exact ih (n + 1)
    · rw [if_neg hav]; simp

/-- With timeout `0` and bytes never available, the poll loop runs forever
(no result at any fuel). -/
theorem pollLoop_zero_never (bus : BusRead) (hav : ∀ m, bus.avail m < 6) :
    ∀ fuel n, pollLoop 0 bus n fuel = none := by
  intro fuel
  induction fuel with
  | zero => intro n; simp [pollLoop]
  | succ k ih =>
    intro n
    simp only [pollLoop, if_pos (hav n)]
    have hnc : ¬ ((0 : Nat) > 0 ∧ elapsed16 (bus.ms n) bus.millis_start > 0) := by omega
    rw [if_neg hnc]
    exact ih (n + 1)

/-- With timeout `0`, once the transport reports 6 available bytes the poll
loop exits with data. -/
theorem pollLoop_zero_ready (bus : BusRead) :
    ∀ fuel n, 6 ≤ bus.avail (n + fuel) → pollLoop 0 bus n (fuel + 1) = some true := by
  intro fuel
  induction fuel with
  | zero =>
    intro n h
    have hge : ¬ bus.avail n < 6 := by simpa using h
    simp [pollLoop, hge]
  | succ k ih =>
    intro n h
    simp only [pollLoop]
    by_cases hav : bus.avail n < 6
    · rw [if_pos hav]
      have hnc : ¬ ((0 : Nat) > 0 ∧ elapsed16 (bus.ms n) bus.millis_start > 0) := by omega
      rw [if_neg hnc]
      exact ih (n + 1) (by simpa [Nat.add_assoc, Nat.add_comm, Nat.add_left_comm] using h)
    · rw [if_neg hav]

/-! ## Claim theorems -/

/-- C1: for every low byte `xl` and high byte `xh`, the per-axis value
`(int16_t)(xh << 8 | xl)` stored by `readAcc`/`readGyro` equals the
reference two's-complement decoding of the pair (`xl` low, `xh` high). -/
theorem claim_C1 (xl xh : Nat) (hl : xl < 256) (hh : xh < 256) :
    combineBytes xl xh = twosComplementRef xl xh := by
  unfold combineBytes toInt16 twosComplementRef
  rw [shiftLeft_or_eq_add xl xh hl]
  have hm : (256 * xh + xl) % 65536 = 256 * xh + xl := Nat.mod_eq_of_lt (by omega)
  rw [hm]

/-- Witness for C1 at the concrete byte pair `(0xFF, 0x80)`. -/
theorem claim_C1_witness :
    combineBytes 255 128 = twosComplementRef 255 128 :=
  claim_C1 255 128 (by decide) (by decide)

/-- C3: for 16-bit start timestamp `s` and current timestamp `c`, the
elapsed-time computation `(uint16_t)millis() - millis_start` used by the
poll loop equals the wraparound-safe unsigned 16-bit difference
`(c - s) mod 2^16`. -/
theorem claim_C3 (c s : Nat) (hc : c < 65536) (hs : s < 65536) :
    ((elapsed16 c s : Nat) : Int) = wrapDiffRef c s := by
  unfold elapsed16 wrapDiffRef
  have h1 : c % 65536 = c := Nat.mod_eq_of_lt hc
  have h2 : s % 65536 = s := Nat.mod_eq_of_lt hs
  rw [h1, h2]
  omega

/-- Witness for C3 at a wrapped pair: the counter wrapped from `65530`
to `5`. -/
theorem claim_C3_witness :
    ((elapsed16 5 65530 : Nat) : Int) = wrapDiffRef 5 65530 :=
  claim_C3 5 65530 (by decide) (by decide)

/-- C6: `timeoutOccurred` returns the current timeout flag and clears it,
so a second consecutive call returns `false` (read-and-reset law). -/
theorem claim_C6 (s : LSM6State) :
    (timeoutOccurred s).1 = s.did_timeout ∧
    (timeoutOccurred s).2.did_timeout = false ∧
    (timeoutOccurred (timeoutOccurred s).2).1 = false := by
  simp [timeoutOccurred]

/-- C2: with a positive configured timeout and a transport that never makes
6 bytes available, a read that observes an elapsed time beyond the timeout
returns with the sticky timeout flag set, consumes no bytes (`read()` count
0), and leaves both result vectors exactly as before the call. -/
theorem claim_C2 (bus : BusRead) (s : LSM6State) (N : Nat)
    (hT : s.io_timeout > 0)
    (hav : ∀ n, bus.avail n < 6)
    (hms : elapsed16 (bus.ms N) bus.millis_start > s.io_timeout) :
    readAcc bus s (N + 1) = some ({ s with did_timeout := true }, 0) ∧
    readGyro bus s (N + 1) = some ({ s with did_timeout := true }, 0) ∧
    ({ s with did_timeout := true } : LSM6State).a = s.a ∧
    ({ s with did_timeout := true } : LSM6State).g = s.g := by
  have h := pollLoop_timeout s.io_timeout bus hT hav N 0 (by simpa using hms)
  refine ⟨?_, ?_, rfl, rfl⟩
  · unfold readAcc; rw [h]
  · unfold readGyro; rw [h]

/-- Witness for C2: timeout 100 ms, transport never supplies bytes, clock
reads 200 at the first poll. -/
theorem claim_C2_witness :
    readAcc ⟨fun _ => 0, fun _ => 200, 0, fun _ => 0⟩
      ⟨deviceType.device_DS33, 106, 100, false, ⟨1, 2, 3⟩, ⟨4, 5, 6⟩⟩ 1 =
      some (⟨deviceType.device_DS33, 106, 100, true, ⟨1, 2, 3⟩, ⟨4, 5, 6⟩⟩, 0) :=
  (claim_C2 ⟨fun _ => 0, fun _ => 200, 0, fun _ => 0⟩
    ⟨deviceType.device_DS33, 106, 100, false, ⟨1, 2, 3⟩, ⟨4, 5, 6⟩⟩ 0
    (by decide) (fun _ => (by decide : (0 : Nat) < 6)) (by decide)).1

/-- C7: with configured timeout 0, the poll loop never exits by timeout and
no completed read ever changes the timeout flag; if the transport never
reports 6 bytes the read never completes at any fuel, and once the
transport reports 6 bytes the read completes with the flag unchanged. -/
theorem claim_C7 (bus : BusRead) (s : LSM6State) (h0 : s.io_timeout = 0) :
    (∀ fuel n, pollLoop s.io_timeout bus n fuel ≠ some false) ∧
    ((∀ n, bus.avail n < 6) →
      ∀ fuel, readAcc bus s fuel = none ∧ readGyro bus s fuel = none) ∧
    (∀ fuel r, readAcc bus s fuel = some r → r.1.did_timeout = s.did_timeout) ∧
    (∀ fuel r, readGyro bus s fuel = some r → r.1.did_timeout = s.did_timeout) ∧
    (∀ N, 6 ≤ bus.avail N →
      ∃ r, readAcc bus s (N + 1) = some r ∧ r.1.did_timeout = s.did_timeout) := by
  refine ⟨?_, ?_, ?_, ?_, ?_⟩
  · rw [h0]; exact fun fuel n => pollLoop_zero_not_timeout bus fuel n
  · intro hav fuel
    constructor
    · unfold readAcc; rw [h0, pollLoop_zero_never bus hav fuel 0]
    · unfold readGyro; rw [h0, pollLoop_zero_never bus hav fuel 0]
  · intro fuel r h
    unfold readAcc at h
    rw [h0] at h
    cases hp : pollLoop 0 bus 0 fuel with
    | none => rw [hp] at h; cases h
    | some b =>
      cases b with
      | false => exact absurd hp (pollLoop_zero_not_timeout bus fuel 0)
      | true => rw [hp] at h; cases h; rfl
  · intro fuel r h
    unfold readGyro at h
    rw [h0] at h
    cases hp : pollLoop 0 bus 0 fuel with
    | none => rw [hp] at h; cases h
    | some b =>
      cases b with
      | false => exact absurd hp (pollLoop_zero_not_timeout bus fuel 0)
      | true => rw [hp] at h; cases h; rfl
  · intro N hN
    have hp := pollLoop_zero_ready bus N 0 (by simpa using hN)
    have hr : readAcc bus s (N + 1) =
        some ({ s with
          a := ⟨combineBytes (bus.bytes 0 % 256) (bus.bytes 1 % 256),
                combineBytes (bus.bytes 2 % 256) (bus.bytes 3 % 256),
                combineBytes (bus.bytes 4 % 256) (bus.bytes 5 % 256)⟩ }, 6) := by
      unfold readAcc; rw [h0, hp]
    exact ⟨_, hr, rfl⟩

/-- Witness for C7: a transport that never supplies bytes and a driver with
timeout 0; the read is still waiting after 5 poll iterations. -/
theorem claim_C7_witness :
    readAcc ⟨fun _ => 0, fun _ => 9999, 0, fun _ => 0⟩
      ⟨deviceType.device_DS33, 106, 0, false, ⟨1, 2, 3⟩, ⟨4, 5, 6⟩⟩ 5 = none ∧
    readGyro ⟨fun _ => 0, fun _ => 9999, 0, fun _ => 0⟩
      ⟨deviceType.device_DS33, 106, 0, false, ⟨1, 2, 3⟩, ⟨4, 5, 6⟩⟩ 5 = none :=
  (claim_C7 ⟨fun _ => 0, fun _ => 9999, 0, fun _ => 0⟩
    ⟨deviceType.device_DS33, 106, 0, false, ⟨1, 2, 3⟩, ⟨4, 5, 6⟩⟩ rfl).2.1
    (fun _ => (by decide : (0 : Nat) < 6)) 5

/-- C9: a completed `readAcc` leaves the gyro vector, bus address, device
type, and configured timeout unchanged; a completed `readGyro` leaves the
accelerometer vector (and the same fields) unchanged. -/
theorem claim_C9 (bus : BusRead) (s : LSM6State) (fuel : Nat) :
    (∀ r, readAcc bus s fuel = some r →
      r.1.g = s.g ∧ r.1.address = s.address ∧ r.1._device = s._device ∧
      r.1.io_timeout = s.io_timeout) ∧
    (∀ r, readGyro bus s fuel = some r →
      r.1.a = s.a ∧ r.1.address = s.address ∧ r.1._device = s._device ∧
      r.1.io_timeout = s.io_timeout) := by
  constructor
  · intro r h
    unfold readAcc at h
    cases hp : pollLoop s.io_timeout bus 0 fuel with
    | none => rw [hp] at h; cases h
    | some b =>
      rw [hp] at h
      cases b with
      | false => cases h; exact ⟨rfl, rfl, rfl, rfl⟩
      | true => cases h; exact ⟨rfl, rfl, rfl, rfl⟩
  · intro r h
    unfold readGyro at h
    cases hp : pollLoop s.io_timeout bus 0 fuel with
    | none => rw [hp] at h; cases h
    | some b =>
      rw [hp] at h
      cases b with
      | false => cases h; exact ⟨rfl, rfl, rfl, rfl⟩
      | true => cases h; exact ⟨rfl, rfl, rfl, rfl⟩

/-- Witness for C9: a successful `readAcc` on a transport that supplies the
bytes 0..5; only the accelerometer vector changed. -/
theorem claim_C9_witness :
    (⟨4, 5, 6⟩ : Vector3) = ⟨4, 5, 6⟩ ∧ (106 : Nat) = 106 ∧
    deviceType.device_DS33 = deviceType.device_DS33 ∧ (0 : Nat) = 0 :=
  (claim_C9 ⟨fun _ => 6, fun _ => 0, 0, fun n => n⟩
    ⟨deviceType.device_DS33, 106, 0, false, ⟨1, 2, 3⟩, ⟨4, 5, 6⟩⟩ 1).1
    (⟨deviceType.device_DS33, 106, 0, false, ⟨256, 770, 1284⟩, ⟨4, 5, 6⟩⟩, 6)
    (by decide)

/-- C8: if the address-write transaction of `testReg` completes with a
nonzero status, `testReg` returns the sentinel `-1` (a negative value,
outside the 0..255 byte range) and performs no read request; it also
returns the sentinel when the write succeeds but no byte is available, and
otherwise returns the byte read. -/
theorem claim_C8 (bus : ProbeBus) :
    (bus.writeStatus ≠ 0 →
      testReg bus = (TEST_REG_ERROR, 0) ∧ TEST_REG_ERROR = -1 ∧ TEST_REG_ERROR < 0) ∧
    (bus.writeStatus = 0 → bus.availByte = none → testReg bus = (TEST_REG_ERROR, 1)) ∧
    (bus.writeStatus = 0 → ∀ b, bus.availByte = some b →
      testReg bus = (((b % 256 : Nat) : Int), 1)) := by
  refine ⟨?_, ?_, ?_⟩
  · intro h
    refine ⟨?_, rfl, by decide⟩
    unfold testReg
    rw [if_pos h]
  · intro h hb
    unfold testReg
    rw [if_neg (by simp [h]), hb]
  · intro h b hb
    unfold testReg
    rw [if_neg (by simp [h]), hb]

/-- Witness for C8 at the three concrete transports: failed write with a
byte that would have been readable, successful write with no byte, and
successful write with byte `0x77` available. -/
theorem claim_C8_witness :
    testReg ⟨2, some 119⟩ = (TEST_REG_ERROR, 0) ∧
    testReg ⟨0, none⟩ = (TEST_REG_ERROR, 1) ∧
    testReg ⟨0, some 119⟩ = (((119 % 256 : Nat) : Int), 1) :=
  ⟨((claim_C8 ⟨2, some 119⟩).1 (by decide)).1,
   (claim_C8 ⟨0, none⟩).2.1 rfl rfl,
   (claim_C8 ⟨0, some 119⟩).2.2 rfl 119 rfl⟩

/-- C10: whenever `init` returns `false`, the entire driver state is
unchanged (device type, stored address, configured timeout, timeout flag
and both result vectors keep their pre-call values). -/
theorem claim_C10 (probe : Nat → Int) (device : deviceType) (sa0 : sa0State)
    (s : LSM6State) (h : (init probe device sa0 s).1 = false) :
    (init probe device sa0 s).2.1 = s := by
  unfold init at h ⊢
  split_ifs at h ⊢
  rfl

/-- Witness for C10: a transport with no device at either candidate address
makes `init(auto, auto)` fail and leave the state untouched. -/
theorem claim_C10_witness :
    (init (fun _ => 0) deviceType.device_auto sa0State.sa0_auto
      ⟨deviceType.device_auto, 0, 0, false, ⟨1, 2, 3⟩, ⟨4, 5, 6⟩⟩).2.1 =
      ⟨deviceType.device_auto, 0, 0, false, ⟨1, 2, 3⟩, ⟨4, 5, 6⟩⟩ :=
  claim_C10 (fun _ => 0) deviceType.device_auto sa0State.sa0_auto
    ⟨deviceType.device_auto, 0, 0, false, ⟨1, 2, 3⟩, ⟨4, 5, 6⟩⟩ (by decide)

/-- C4: `init` with device and SA0 both pinned performs zero probe
transactions, returns true, and stores the address determined by the
device/SA0 combination (high address for SA0 high, low address for SA0
low) — the same address auto-detection computes when a transport answers
the identity constant at that combination's address. -/
theorem claim_C4 (probe : Nat → Int) (device : deviceType) (sa0 : sa0State) (s : LSM6State)
    (hd : device ≠ device_auto) (hs0 : sa0 ≠ sa0_auto) :
    init probe device sa0 s = (true, initTail device sa0 s, 0) ∧
    (initTail device sa0 s).address =
      (if sa0 = sa0_high then DS33_SA0_HIGH_ADDRESS else DS33_SA0_LOW_ADDRESS) ∧
    (initTail device sa0 s)._device = device ∧
    (∀ probe2 : Nat → Int,
      probe2 (if sa0 = sa0_high then DS33_SA0_HIGH_ADDRESS else DS33_SA0_LOW_ADDRESS) =
        ((DS33_WHO_ID : Nat) : Int) →
      probe2 (if sa0 = sa0_high then DS33_SA0_LOW_ADDRESS else DS33_SA0_HIGH_ADDRESS) ≠
        ((DS33_WHO_ID : Nat) : Int) →
      ∃ k, init probe2 device_auto sa0_auto s = (true, initTail device sa0 s, k)) := by
  cases device with
  | device_auto => exact absurd rfl hd
  | device_DS33 =>
    cases sa0 with
    | sa0_auto => exact absurd rfl hs0
    | sa0_high =>
      refine ⟨by simp [init], by simp [initTail], by simp [initTail], ?_⟩
      intro probe2 h1 h2
      refine ⟨1, ?_⟩
      simp at h1 h2
      simp [init, probePhase, h1]
    | sa0_low =>
      refine ⟨by simp [init], by simp [initTail], by simp [initTail], ?_⟩
      intro probe2 h1 h2
      refine ⟨2, ?_⟩
      simp at h1 h2
      simp [init, probePhase, h1, h2]

/-- Witness for C4: pinned `init(DS33, high)` succeeds with zero probes,
and auto-detection against a transport answering the identity constant at
the high address resolves to the same stored state. -/
theorem claim_C4_witness :
    init (fun _ => 0) deviceType.device_DS33 sa0State.sa0_high
      ⟨deviceType.device_auto, 0, 0, false, ⟨1, 2, 3⟩, ⟨4, 5, 6⟩⟩ =
      (true, initTail deviceType.device_DS33 sa0State.sa0_high
        ⟨deviceType.device_auto, 0, 0, false, ⟨1, 2, 3⟩, ⟨4, 5, 6⟩⟩, 0) ∧
    ∃ k, init (fun a => if a = DS33_SA0_HIGH_ADDRESS then ((DS33_WHO_ID : Nat) : Int) else 0)
        deviceType.device_auto sa0State.sa0_auto
        ⟨deviceType.device_auto, 0, 0, false, ⟨1, 2, 3⟩, ⟨4, 5, 6⟩⟩ =
      (true, initTail deviceType.device_DS33 sa0State.sa0_high
        ⟨deviceType.device_auto, 0, 0, false, ⟨1, 2, 3⟩, ⟨4, 5, 6⟩⟩, k) :=
  ⟨(claim_C4 (fun _ => 0) deviceType.device_DS33 sa0State.sa0_high
      ⟨deviceType.device_auto, 0, 0, false, ⟨1, 2, 3⟩, ⟨4, 5, 6⟩⟩
      (by decide) (by decide)).1,
   (claim_C4 (fun _ => 0) deviceType.device_DS33 sa0State.sa0_high
      ⟨deviceType.device_auto, 0, 0, false, ⟨1, 2, 3⟩, ⟨4, 5, 6⟩⟩
      (by decide) (by decide)).2.2.2
     (fun a => if a = DS33_SA0_HIGH_ADDRESS then ((DS33_WHO_ID : Nat) : Int) else 0)
     (by decide) (by decide)⟩

/-- C5: probing tries the high SA0 candidate before the low one; a pinned
candidate's opposite address is skipped (the result does not depend on
that probe); a candidate whose identity probe returns the identity
constant is accepted as the resolved SA0 state and resolves the device if
it was auto; and if device or SA0 is still auto after probing, `init`
returns false. -/
theorem claim_C5 (probe : Nat → Int) (device : deviceType) (sa0 : sa0State) (s : LSM6State)
    (hauto : device = device_auto ∨ sa0 = sa0_auto) :
    (sa0 ≠ sa0_low → probe DS33_SA0_HIGH_ADDRESS = ((DS33_WHO_ID : Nat) : Int) →
      probePhase probe device sa0 =
        ((if device = device_auto then device_DS33 else device), sa0_high, 1)) ∧
    (sa0 ≠ sa0_high →
      (sa0 = sa0_low ∨ probe DS33_SA0_HIGH_ADDRESS ≠ ((DS33_WHO_ID : Nat) : Int)) →
      probe DS33_SA0_LOW_ADDRESS = ((DS33_WHO_ID : Nat) : Int) →
      (probePhase probe device sa0).1 =
        (if device = device_auto then device_DS33 else device) ∧
      (probePhase probe device sa0).2.1 = sa0_low) ∧
    (∀ probe2 : Nat → Int,
      (sa0 = sa0_low → probe2 DS33_SA0_LOW_ADDRESS = probe DS33_SA0_LOW_ADDRESS →
        probePhase probe2 device sa0 = probePhase probe device sa0) ∧
      (sa0 = sa0_high → probe2 DS33_SA0_HIGH_ADDRESS = probe DS33_SA0_HIGH_ADDRESS →
        probePhase probe2 device sa0 = probePhase probe device sa0)) ∧
    ((probePhase probe device sa0).1 = device_auto ∨
        (probePhase probe device sa0).2.1 = sa0_auto →
      (init probe device sa0 s).1 = false) := by
  have hdev : device = device_auto ∨ device = device_DS33 := by cases device <;> simp
  refine ⟨?_, ?_, ?_, ?_⟩
  · intro hlow hhi
    unfold probePhase
    rw [if_pos hdev, if_pos hlow, if_pos hhi]
  · intro hhigh hskip hlo
    unfold probePhase
    rw [if_pos hdev]
    rcases hskip with hl | hnot
    · rw [if_neg (by simp [hl]), if_pos hlo]
      exact ⟨rfl, rfl⟩
    · by_cases hlow : sa0 ≠ sa0_low
      · rw [if_pos hlow, if_neg hnot, if_pos hhigh, if_pos hlo]
        exact ⟨rfl, rfl⟩
      · rw [if_neg hlow, if_pos hlo]
        exact ⟨rfl, rfl⟩
  · intro probe2
    constructor
    · intro hl heq
      have e : ∀ p : Nat → Int, probePhase p device sa0 =
          (if p DS33_SA0_LOW_ADDRESS = ((DS33_WHO_ID : Nat) : Int) then
            ((if device = device_auto then device_DS33 else device), sa0_low, 1)
          else (device, sa0, 1)) := by
        intro p
        unfold probePhase
        rw [if_pos hdev, if_neg (by simp [hl])]
      rw [e probe2, e probe, heq]
    · intro hh heq
      have hlow : sa0 ≠ sa0_low := by simp [hh]
      have hnh : ¬ sa0 ≠ sa0_high := by simp [hh]
      have e : ∀ p : Nat → Int, probePhase p device sa0 =
          (if p DS33_SA0_HIGH_ADDRESS = ((DS33_WHO_ID : Nat) : Int) then
            ((if device = device_auto then device_DS33 else device), sa0_high, 1)
          else (device, sa0, 1)) := by
        intro p
        unfold probePhase
        rw [if_pos hdev, if_pos hlow]
        by_cases hp : p DS33_SA0_HIGH_ADDRESS = ((DS33_WHO_ID : Nat) : Int)
        · rw [if_pos hp, if_pos hp]
        · rw [if_neg hp, if_neg hp, if_neg hnh]
      rw [e probe2, e probe, heq]
  · intro hun
    unfold init
    rw [if_pos hauto, if_pos hun]

/-- Witness for C5: a transport answering the identity constant only at the
low candidate address makes `init(auto, auto)` resolve SA0 = low and
device = DS33. -/
theorem claim_C5_witness :
    (probePhase
        (fun a => if a = DS33_SA0_LOW_ADDRESS then ((DS33_WHO_ID : Nat) : Int) else 0)
        deviceType.device_auto sa0State.sa0_auto).1 =
      (if deviceType.device_auto = deviceType.device_auto then deviceType.device_DS33
       else deviceType.device_auto) ∧
    (probePhase
        (fun a => if a = DS33_SA0_LOW_ADDRESS then ((DS33_WHO_ID : Nat) : Int) else 0)
        deviceType.device_auto sa0State.sa0_auto).2.1 = sa0State.sa0_low :=
  (claim_C5
    (fun a => if a = DS33_SA0_LOW_ADDRESS then ((DS33_WHO_ID : Nat) : Int) else 0)
    deviceType.device_auto sa0State.sa0_auto
    ⟨deviceType.device_auto, 0, 0, false, ⟨1, 2, 3⟩, ⟨4, 5, 6⟩⟩
    (Or.inl rfl)).2.1 (by decide) (Or.inr (by decide)) (by decide)

end LSM6Model
